import Mathlib

/-!
Verification of the connection and session management layer of a
multi-client gateway (`src/lib/server.ts` and
`src/lib/controller/incoming_message.ts`), shallowly embedded in Lean.

Machine state is passed explicitly: the `Client` class becomes
`ClientState`, the `ClientsController` class becomes
`ClientsControllerState`, mutations become functions returning updated
states, thrown exceptions become `Option`/sum-shaped results that carry
the state at the point of the throw (field writes performed before a
throw persist, as they do on `this` in the source).
-/

namespace ZwaveJsServer

/-- Dump of shared-controller state rendered for a schema version. -/
structure StateSnapshot where
  blob : Nat
  schema : Int
deriving DecidableEq, Repr

/-- Dump of the shared controller's logging configuration rendered for a
schema version. -/
structure LogConfigDump where
  config : Nat
  schema : Int
deriving DecidableEq, Repr

/-- The shared controller (`driver`), abstracted to the data the session
layer reads or writes: an opaque state blob and the logging configuration. -/
structure Driver where
  stateBlob : Nat
  logConfig : Nat
deriving DecidableEq, Repr

/-- Modelled from the spec: `dumpState` (src/lib/state.ts is not under
src/) produces a full snapshot of current shared-controller state for the
given schema version. -/
def dumpState (d : Driver) (schemaVersion : Int) : StateSnapshot :=
  ⟨d.stateBlob, schemaVersion⟩

/-- Modelled from the spec: `dumpLogConfig` (src/lib/state.ts is not under
src/) renders the shared controller's logging configuration for the given
schema version. -/
def dumpLogConfig (d : Driver) (schemaVersion : Int) : LogConfigDump :=
  ⟨d.logConfig, schemaVersion⟩

/-- Modelled from the spec: `driver.updateLogConfig` (the controller is an
external collaborator) mutates the shared controller's logging
configuration. -/
def Driver.updateLogConfig (d : Driver) (config : Nat) : Driver :=
  { d with logConfig := config }

/-- Per-connection protocol state of one `Client` (server.ts lines 49-54
plus the transport's connectedness, `socket.readyState === OPEN`). -/
structure ClientState where
  receiveEvents : Bool
  outstandingPing : Bool
  schemaVersion : Int
  receiveLogs : Bool
  additionalUserAgentComponents : Option (List (String × String))
  connected : Bool
deriving DecidableEq, Repr

/-- Error codes carried by outgoing error replies.  The error module is not
under src/; the codes are the ones the spec names (schema incompatibility,
unknown command, unknown error, domain error) plus handler-defined codes. -/
inductive ErrorCode
  | schemaIncompatible
  | unknownCommand
  | unknownError
  | zwaveError
  | custom (code : String)
deriving DecidableEq, Repr

/-- Structured extra fields of an error reply (the `...args` spread of a
`BaseError` in the catch block). -/
inductive ErrArgs
  | empty
  | schemaVersion (v : Int)
  | command (c : String)
  | custom (payload : Nat)
deriving DecidableEq, Repr

/-- Typed errors of the `BaseError` family thrown by this core:
`SchemaIncompatibleError` carries the offending version,
`UnknownCommandError` carries the command, and handler-raised `BaseError`s
carry a stable code plus structured fields. -/
inductive BaseError
  | schemaIncompatible (schemaVersion : Int)
  | unknownCommand (command : String)
  | handlerError (code : String) (payload : Nat)
deriving DecidableEq, Repr

/-- ErrorCode of a `BaseError` (the `errorCode` field read in the catch
block). -/
def BaseError.errorCode : BaseError → ErrorCode
  | .schemaIncompatible _ => .schemaIncompatible
  | .unknownCommand _ => .unknownCommand
  | .handlerError code _ => .custom code

/-- Remaining fields of a `BaseError` after `errorCode`, `name`, `message`
and `stack` are destructured away in the catch block. -/
def BaseError.args : BaseError → ErrArgs
  | .schemaIncompatible v => .schemaVersion v
  | .unknownCommand c => .command c
  | .handlerError _ payload => .custom payload

/-- Any failure thrown during handling of a parsed message, as classified
by the catch block in `receiveMessage`: a `BaseError`, a `ZWaveError`
(domain error with code and message), or anything else. -/
inductive ThrownError
  | base (e : BaseError)
  | zwave (code : Nat) (message : String)
  | other
deriving DecidableEq, Repr

/-- Outcome of delegating a namespaced command to its external handler
family: a result value, or a thrown failure. -/
inductive HandlerOutcome
  | success (result : Nat)
  | thrown (e : ThrownError)
deriving DecidableEq, Repr

/-- Payload of a successful result reply. -/
inductive ResultPayload
  | empty
  | state (snapshot : StateSnapshot)
  | logConfig (config : LogConfigDump)
  | handlerResult (result : Nat)
deriving DecidableEq, Repr

/-- Outgoing wire messages produced by the session (`sendResultSuccess`,
`sendResultError`, `sendResultZWaveError`, `sendEvent`); a success reply
records the `compress` framing flag passed to `sendData`. -/
inductive OutgoingMessage
  | resultSuccess (messageId : String) (result : ResultPayload) (compress : Bool)
  | resultError (messageId : String) (errorCode : ErrorCode) (args : ErrArgs)
  | resultZWaveError (messageId : String) (zwaveErrorCode : Nat) (zwaveErrorMessage : String)
  | event (payload : Nat)
deriving DecidableEq, Repr

/-- MessageId a message is addressed to, when it is a result reply. -/
def OutgoingMessage.messageIdOf : OutgoingMessage → Option String
  | .resultSuccess messageId _ _ => some messageId
  | .resultError messageId _ _ => some messageId
  | .resultZWaveError messageId _ _ => some messageId
  | .event _ => none

/-- Whether a message is a result reply (success or error). -/
def OutgoingMessage.isResult : OutgoingMessage → Bool
  | .resultSuccess _ _ _ => true
  | .resultError _ _ _ => true
  | .resultZWaveError _ _ _ => true
  | .event _ => false

/-- Whether a message is a success result reply. -/
def OutgoingMessage.isSuccess : OutgoingMessage → Bool
  | .resultSuccess _ _ _ => true
  | _ => false

/-- Incoming message envelope after a successful parse.  Fields beyond
`messageId` and `command` model the command-specific fields the built-in
commands read (`schemaVersion`, `additionalUserAgentComponents`,
`config`). -/
structure IncomingMessage where
  messageId : String
  command : String
  schemaVersion : Int
  additionalUserAgentComponents : Option (List (String × String))
  config : Nat
deriving DecidableEq, Repr

/-- A raw transport frame: either data `JSON.parse` rejects, or a
successfully parsed message. -/
inductive RawFrame
  | malformed (data : String)
  | wellFormed (msg : IncomingMessage)
deriving DecidableEq, Repr

/-- Modelled from the spec: the `ServerCommand` string constants
(src/lib/command.ts is not under src/) for the five built-in commands the
spec lists in its external-interface section. -/
def ServerCommand.initCmd : String := "initialize"

/-- Modelled from the spec: built-in schema renegotiation command. -/
def ServerCommand.setApiSchema : String := "setApiSchema"

/-- Modelled from the spec: built-in start-listening command. -/
def ServerCommand.startListening : String := "startListening"

/-- Modelled from the spec: built-in log-config set command. -/
def ServerCommand.updateLogConfig : String := "updateLogConfig"

/-- Modelled from the spec: built-in log-config get command. -/
def ServerCommand.getLogConfig : String := "getLogConfig"

/-- Keys of the `instanceHandlers` record (server.ts lines 56-101): the
closed set of recognized command namespaces.  The string values of the
`Instance` enum (src/lib/instance.ts is not under src/) are modelled from
the member names used in server.ts and the spec's closed namespace set. -/
def instanceNames : List String :=
  ["controller", "driver", "node", "multicast_group", "broadcast_node",
   "endpoint", "utils"]

/-- Property names every plain JavaScript object literal inherits from
`Object.prototype`.  The `instanceHandlers` record is a plain object
literal, so the lookup `this.instanceHandlers[instance]` at server.ts line
181 is truthy for these names as well (eleven inherited functions plus the
`__proto__` accessor, whose value `Object.prototype` is also truthy), and
the dispatch takes the handler branch and calls the resolved value. -/
def objectPrototypeKeys : List String :=
  ["constructor", "hasOwnProperty", "isPrototypeOf", "propertyIsEnumerable",
   "toLocaleString", "toString", "valueOf", "__defineGetter__",
   "__defineSetter__", "__lookupGetter__", "__lookupSetter__", "__proto__"]

/-- Namespace prefix of a command: `msg.command.split(".")[0]`, the text
before the first `.` (the whole string when it has no `.`). -/
def namespaceOf (command : String) : String :=
  String.mk (command.toList.takeWhile (fun ch => ch ≠ '.'))

/-- Translation of `Client.setSchemaVersion` (server.ts lines 119-128):
the supplied version is assigned to `this.schemaVersion` first, and only
then is the range check performed; on violation a
`SchemaIncompatibleError` is thrown, with the assignment already made.
The returned pair is the client state at return or throw time, plus the
thrown error when the check fails. -/
def setSchemaVersion (minSchemaVersion maxSchemaVersion : Int)
    (c : ClientState) (schemaVersion : Int) : ClientState × Option BaseError :=
  let c := { c with schemaVersion := schemaVersion }
  if c.schemaVersion < minSchemaVersion ∨ c.schemaVersion > maxSchemaVersion then
    (c, some (.schemaIncompatible c.schemaVersion))
  else
    (c, none)

/-- Translation of the `try` block of `Client.receiveMessage` (server.ts
lines 141-188) on a successfully parsed message: the built-in command
chain, then namespace dispatch through `instanceHandlers`, then
`UnknownCommandError`.  The dispatch guard `if (this.instanceHandlers[instance])`
is a truthiness test on a plain-object property lookup, so it succeeds both
for the seven declared namespace keys and for the `Object.prototype`-inherited
property names; in either case the resolved value is called and its result
sent as a success reply.  `ho` is the outcome of that call — the external
handler family for a declared key, the inherited `Object.prototype` function
for an inherited key (a normal return is a success outcome, a raised
`TypeError` is a thrown one).  The result carries the client and driver
state at normal return or at throw time, the messages sent so far, and the
thrown error if any. -/
def handleParsed (minSchemaVersion maxSchemaVersion : Int) (ho : HandlerOutcome)
    (c : ClientState) (d : Driver) (msg : IncomingMessage) :
    ClientState × Driver × List OutgoingMessage × Option ThrownError :=
  if msg.command = ServerCommand.initCmd then
    match setSchemaVersion minSchemaVersion maxSchemaVersion c msg.schemaVersion with
    | (c, some e) => (c, d, [], some (.base e))
    | (c, none) =>
      ({ c with additionalUserAgentComponents := msg.additionalUserAgentComponents },
       d, [.resultSuccess msg.messageId .empty false], none)
  else if msg.command = ServerCommand.setApiSchema then
    match setSchemaVersion minSchemaVersion maxSchemaVersion c msg.schemaVersion with
    | (c, some e) => (c, d, [], some (.base e))
    | (c, none) => (c, d, [.resultSuccess msg.messageId .empty false], none)
  else if msg.command = ServerCommand.startListening then
    ({ c with receiveEvents := true }, d,
     [.resultSuccess msg.messageId (.state (dumpState d c.schemaVersion)) true],
     none)
  else if msg.command = ServerCommand.updateLogConfig then
    (c, d.updateLogConfig msg.config, [.resultSuccess msg.messageId .empty false],
     none)
  else if msg.command = ServerCommand.getLogConfig then
    (c, d,
     [.resultSuccess msg.messageId (.logConfig (dumpLogConfig d c.schemaVersion)) false],
     none)
  else if namespaceOf msg.command ∈ instanceNames ∨
      namespaceOf msg.command ∈ objectPrototypeKeys then
    match ho with
    | .success result =>
      (c, d, [.resultSuccess msg.messageId (.handlerResult result) false], none)
    | .thrown e => (c, d, [], some e)
  else
    (c, d, [], some (.base (.unknownCommand msg.command)))

/-- Translation of the `catch` block of `Client.receiveMessage` (server.ts
lines 189-202): a `BaseError` is reported with its code and structured
fields, a `ZWaveError` with the domain code and message, and anything else
as the generic unknown error with empty args. -/
def catchReply (messageId : String) : ThrownError → OutgoingMessage
  | .base e => .resultError messageId e.errorCode e.args
  | .zwave code message => .resultZWaveError messageId code message
  | .other => .resultError messageId .unknownError .empty

/-- Outcome of one `Client.receiveMessage` call: final client and driver
state, the outgoing messages in send order, and whether the session closed
its own socket. -/
structure ReceiveResult where
  client : ClientState
  driver : Driver
  sent : List OutgoingMessage
  closed : Bool
deriving DecidableEq, Repr

/-- Translation of `Client.receiveMessage` (server.ts lines 130-203): a
parse failure closes the socket and returns without replying; otherwise
the try block runs and a thrown failure is converted to exactly one error
reply by the catch block. -/
def receiveMessage (minSchemaVersion maxSchemaVersion : Int) (ho : HandlerOutcome)
    (c : ClientState) (d : Driver) : RawFrame → ReceiveResult
  | .malformed _ => ⟨c, d, [], true⟩
  | .wellFormed msg =>
    match handleParsed minSchemaVersion maxSchemaVersion ho c d msg with
    | (c, d, out, none) => ⟨c, d, out, false⟩
    | (c, d, out, some e) => ⟨c, d, out ++ [catchReply msg.messageId e], false⟩

/-- Translation of `Client.disconnect` (server.ts lines 281-283):
`socket.close()`, after which the socket is no longer OPEN. -/
def Client.disconnect (c : ClientState) : ClientState :=
  { c with connected := false }

/-- Translation of `Client.checkAlive` (server.ts lines 272-279): if the
previous probe is still unacknowledged the client is disconnected and no
new probe is sent; otherwise the outstanding-ping flag is set and a ping
is sent.  The Bool records whether `socket.ping()` was called. -/
def checkAlive (c : ClientState) : ClientState × Bool :=
  if c.outstandingPing then (Client.disconnect c, false)
  else ({ c with outstandingPing := true }, true)

/-- Running state of the Logging Forwarder.  Modelled from the spec:
src/lib/logging.ts (class `LoggingEventForwarder`) is not under src/;
`start` makes `started` true, `stop` makes it false, a newly constructed
forwarder is not started. -/
structure LoggingEventForwarder where
  started : Bool
deriving DecidableEq, Repr

/-- Registry state of one `ClientsController` (server.ts lines 285-293):
the client list, the coalesced-cleanup flag, whether the heartbeat timer
exists, and the lazily created Logging Forwarder. -/
structure ClientsControllerState where
  clients : List ClientState
  cleanupScheduled : Bool
  pingIntervalActive : Bool
  loggingEventForwarder : Option LoggingEventForwarder
deriving DecidableEq, Repr

/-- Translation of the `loggingEventForwarderStarted` getter (server.ts
lines 335-337): `this.loggingEventForwarder?.started === true`. -/
def loggingEventForwarderStarted (s : ClientsControllerState) : Bool :=
  match s.loggingEventForwarder with
  | some f => f.started
  | none => false

/-- Translation of `ClientsController.configureLoggingEventForwarder`
(server.ts lines 343-354): create the forwarder on first use, then start
it if it is not already running. -/
def configureLoggingEventForwarder (s : ClientsControllerState) :
    ClientsControllerState :=
  let s :=
    match s.loggingEventForwarder with
    | none => { s with loggingEventForwarder := some ⟨false⟩ }
    | some _ => s
  if loggingEventForwarderStarted s then s
  else { s with loggingEventForwarder := some ⟨true⟩ }

/-- Translation of `ClientsController.cleanupLoggingEventForwarder`
(server.ts lines 356-363): stop the forwarder when no registered client
has `receiveLogs` and the forwarder is started. -/
def cleanupLoggingEventForwarder (s : ClientsControllerState) :
    ClientsControllerState :=
  if (s.clients.filter (fun cl => cl.receiveLogs)).length = 0 ∧
      loggingEventForwarderStarted s = true then
    { s with loggingEventForwarder := some ⟨false⟩ }
  else s

/-- Translation of the heartbeat timer body installed by
`ClientsController.addSocket` (server.ts lines 313-327): each tick keeps
the connected clients and force-closes and drops the rest; no probe of any
kind is sent. -/
def pingIntervalTick (s : ClientsControllerState) : ClientsControllerState :=
  { s with clients := s.clients.filter (fun cl => cl.connected) }

/-- Translation of `ClientsController.scheduleClientCleanup` (server.ts
lines 365-371) together with the scheduler queue: when the in-flight flag
is set the call is a no-op, otherwise the flag is set and one cleanup pass
is queued (`queued` counts passes queued and not yet run). -/
def scheduleClientCleanup (s : ClientsControllerState) (queued : Nat) :
    ClientsControllerState × Nat :=
  if s.cleanupScheduled then (s, queued)
  else ({ s with cleanupScheduled := true }, queued + 1)

/-- A burst of `n` transport close notifications, each invoking
`scheduleClientCleanup` (server.ts lines 305-309), all arriving before any
queued cleanup pass runs. -/
def closeNotifications : Nat → ClientsControllerState × Nat →
    ClientsControllerState × Nat
  | 0, sq => sq
  | n + 1, (s, queued) => closeNotifications n (scheduleClientCleanup s queued)

/-- Translation of `ClientsController.cleanupClients` (server.ts lines
373-377): reset the in-flight flag, filter the registry down to connected
clients, then re-evaluate the Logging Forwarder stop condition. -/
def cleanupClients (s : ClientsControllerState) : ClientsControllerState :=
  cleanupLoggingEventForwarder
    { s with cleanupScheduled := false,
             clients := s.clients.filter (fun cl => cl.connected) }

/-- Translation of `ClientsController.disconnect` (server.ts lines
379-387): clear the heartbeat timer, force-disconnect every client, empty
the registry, and re-evaluate the Logging Forwarder stop condition. -/
def ClientsController.disconnect (s : ClientsControllerState) :
    ClientsControllerState :=
  cleanupLoggingEventForwarder
    { s with pingIntervalActive := false, clients := [] }

/-- Members of the `ControllerCommand` enum referenced by
controller/incoming_message.ts.  The enum's string values
(src/lib/controller/command.ts is not under src/) are irrelevant here;
the member names are taken from their uses in the union below. -/
inductive ControllerCommand
  | beginInclusion
  | stopInclusion
  | beginExclusion
  | stopExclusion
  | removeFailedNode
  | replaceFailedNode
  | healNode
  | beginHealingNetwork
  | stopHealingNetwork
  | isFailedNode
  | getAssociationGroups
  | getAssociations
  | isAssociationAllowed
  | addAssociations
  | removeAssociations
  | removeNodeFromAllAssociations
  | removeNodeFromAllAssocations
  | getNodeNeighbors
  | grantSecurityClasses
  | validateDSKAndEnterPIN
  | provisionSmartStartNode
  | unprovisionSmartStartNode
  | getProvisioningEntry
  | getProvisioningEntries
  | supportsFeature
  | backupNVMRaw
  | restoreNVM
  | setRFRegion
  | getRFRegion
  | setPowerlevel
  | getPowerlevel
  | getState
  | getKnownLifelineRoutes
  | isAnyOTAFirmwareUpdateInProgress
  | getAnyFirmwareUpdateProgress
  | getAvailableFirmwareUpdates
  | beginOTAFirmwareUpdate
  | firmwareUpdateOTA
deriving DecidableEq, Repr

/-- The exported incoming-command interfaces of
controller/incoming_message.ts, one constructor per interface. -/
inductive ControllerIncomingInterface
  | beginInclusion
  | beginInclusionLegacy
  | stopInclusion
  | beginExclusion
  | stopExclusion
  | removeFailedNode
  | replaceFailedNode
  | replaceFailedNodeLegacy
  | healNode
  | beginHealingNetwork
  | stopHealingNetwork
  | isFailedNode
  | getAssociationGroups
  | getAssociations
  | isAssociationAllowed
  | addAssociations
  | removeAssociations
  | removeNodeFromAllAssociations
  | getNodeNeighbors
  | grantSecurityClasses
  | validateDSKAndEnterPIN
  | provisionSmartStartNode
  | unprovisionSmartStartNode
  | getProvisioningEntry
  | getProvisioningEntries
  | supportsFeature
  | backupNVMRaw
  | restoreNVM
  | setRFRegion
  | getRFRegion
  | setPowerlevel
  | getPowerlevel
  | getState
  | getKnownLifelineRoutes
  | isAnyOTAFirmwareUpdateInProgress
  | getAvailableFirmwareUpdates
  | beginOTAFirmwareUpdate
  | firmwareUpdateOTA
deriving DecidableEq, Repr

/-- Commands admitted by each interface's `command` field, read off
controller/incoming_message.ts; an interface whose `command` field is a
union of two enum members (lines 133-139 and 234-239) admits both. -/
def acceptedCommands : ControllerIncomingInterface → List ControllerCommand
  | .beginInclusion => [.beginInclusion]
  | .beginInclusionLegacy => [.beginInclusion]
  | .stopInclusion => [.stopInclusion]
  | .beginExclusion => [.beginExclusion]
  | .stopExclusion => [.stopExclusion]
  | .removeFailedNode => [.removeFailedNode]
  | .replaceFailedNode => [.replaceFailedNode]
  | .replaceFailedNodeLegacy => [.replaceFailedNode]
  | .healNode => [.healNode]
  | .beginHealingNetwork => [.beginHealingNetwork]
  | .stopHealingNetwork => [.stopHealingNetwork]
  | .isFailedNode => [.isFailedNode]
  | .getAssociationGroups => [.getAssociationGroups]
  | .getAssociations => [.getAssociations]
  | .isAssociationAllowed => [.isAssociationAllowed]
  | .addAssociations => [.addAssociations]
  | .removeAssociations => [.removeAssociations]
  | .removeNodeFromAllAssociations =>
    [.removeNodeFromAllAssociations, .removeNodeFromAllAssocations]
  | .getNodeNeighbors => [.getNodeNeighbors]
  | .grantSecurityClasses => [.grantSecurityClasses]
  | .validateDSKAndEnterPIN => [.validateDSKAndEnterPIN]
  | .provisionSmartStartNode => [.provisionSmartStartNode]
  | .unprovisionSmartStartNode => [.unprovisionSmartStartNode]
  | .getProvisioningEntry => [.getProvisioningEntry]
  | .getProvisioningEntries => [.getProvisioningEntries]
  | .supportsFeature => [.supportsFeature]
  | .backupNVMRaw => [.backupNVMRaw]
  | .restoreNVM => [.restoreNVM]
  | .setRFRegion => [.setRFRegion]
  | .getRFRegion => [.getRFRegion]
  | .setPowerlevel => [.setPowerlevel]
  | .getPowerlevel => [.getPowerlevel]
  | .getState => [.getState]
  | .getKnownLifelineRoutes => [.getKnownLifelineRoutes]
  | .isAnyOTAFirmwareUpdateInProgress =>
    [.isAnyOTAFirmwareUpdateInProgress, .getAnyFirmwareUpdateProgress]
  | .getAvailableFirmwareUpdates => [.getAvailableFirmwareUpdates]
  | .beginOTAFirmwareUpdate => [.beginOTAFirmwareUpdate]
  | .firmwareUpdateOTA => [.firmwareUpdateOTA]

/-- The `IncomingMessageController` union (controller/incoming_message.ts
lines 265-303), as the list of its member interfaces in source order. -/
def incomingMessageController : List ControllerIncomingInterface :=
  [.beginInclusion, .beginInclusionLegacy, .stopInclusion, .beginExclusion,
   .stopExclusion, .removeFailedNode, .replaceFailedNode,
   .replaceFailedNodeLegacy, .healNode, .beginHealingNetwork,
   .stopHealingNetwork, .isFailedNode, .getAssociationGroups,
   .getAssociations, .isAssociationAllowed, .addAssociations,
   .removeAssociations, .removeNodeFromAllAssociations, .getNodeNeighbors,
   .grantSecurityClasses, .validateDSKAndEnterPIN, .provisionSmartStartNode,
   .unprovisionSmartStartNode, .getProvisioningEntry,
   .getProvisioningEntries, .supportsFeature, .backupNVMRaw, .restoreNVM,
   .setRFRegion, .getRFRegion, .setPowerlevel, .getPowerlevel, .getState,
   .getKnownLifelineRoutes, .isAnyOTAFirmwareUpdateInProgress,
   .getAvailableFirmwareUpdates, .beginOTAFirmwareUpdate,
   .firmwareUpdateOTA]

/-- Whether the controller incoming-message surface accepts a command:
some interface of the union admits it. -/
def controllerAccepts (cmd : ControllerCommand) : Bool :=
  incomingMessageController.any (fun i => cmd ∈ acceptedCommands i)

/-- C7: a raw frame that fails to parse makes the session close the
connection immediately, send no reply of any kind, and leave the client
and driver state untouched. -/
theorem parse_failure_silent_close (minSV maxSV : Int) (ho : HandlerOutcome)
    (c : ClientState) (d : Driver) (data : String) :
    receiveMessage minSV maxSV ho c d (.malformed data) = ⟨c, d, [], true⟩ :=
  rfl

/-- C9: the controller incoming-message union accepts both the canonical
and the legacy spelling of the two renamed commands, and each pair is
admitted by exactly one and the same interface of the union (hence the
same operation): `removeNodeFromAllAssociations` together with
`removeNodeFromAllAssocations`, and `isAnyOTAFirmwareUpdateInProgress`
together with `getAnyFirmwareUpdateProgress`. -/
theorem legacy_controller_command_aliases :
    incomingMessageController.filter
        (fun i => (acceptedCommands i).contains
          ControllerCommand.removeNodeFromAllAssociations) =
      [.removeNodeFromAllAssociations] ∧
    incomingMessageController.filter
        (fun i => (acceptedCommands i).contains
          ControllerCommand.removeNodeFromAllAssocations) =
      [.removeNodeFromAllAssociations] ∧
    incomingMessageController.filter
        (fun i => (acceptedCommands i).contains
          ControllerCommand.isAnyOTAFirmwareUpdateInProgress) =
      [.isAnyOTAFirmwareUpdateInProgress] ∧
    incomingMessageController.filter
        (fun i => (acceptedCommands i).contains
          ControllerCommand.getAnyFirmwareUpdateProgress) =
      [.isAnyOTAFirmwareUpdateInProgress] := by
  decide

/-- C1 counterexample: with bounds [1, 10], a `setApiSchema` carrying
schemaVersion 999 is answered with the schema-incompatibility error, yet
the stored schemaVersion is mutated from 1 to the out-of-range 999 —
`setSchemaVersion` assigns before it checks, so the rejected value is
stored. -/
theorem schema_rejection_mutates_state :
    (receiveMessage 1 10 (.success 0) ⟨false, false, 1, false, none, true⟩
        ⟨0, 0⟩ (.wellFormed ⟨"2", "setApiSchema", 999, none, 0⟩)).sent =
      [.resultError "2" .schemaIncompatible (.schemaVersion 999)] ∧
    (receiveMessage 1 10 (.success 0) ⟨false, false, 1, false, none, true⟩
        ⟨0, 0⟩ (.wellFormed ⟨"2", "setApiSchema", 999, none, 0⟩)).client.schemaVersion
      = 999 := by
  decide

/-- C2 counterexample: the heartbeat tick sends no probe at all.  With a
connected client whose previous probe is still unacknowledged
(`outstandingPing = true`) and a connected client that was never probed,
the tick keeps both, disconnects neither, and sets no outstanding-ping
flag: the never-probed client still has `outstandingPing = false`
afterwards and the unacknowledged one is still registered and connected. -/
theorem heartbeat_tick_never_probes :
    (pingIntervalTick
        ⟨[⟨false, true, 1, false, none, true⟩, ⟨false, false, 1, false, none, true⟩],
         false, true, none⟩).clients =
      [⟨false, true, 1, false, none, true⟩, ⟨false, false, 1, false, none, true⟩] ∧
    (ClientState.mk false true 1 false none true).connected = true ∧
    (ClientState.mk false true 1 false none true).outstandingPing = true ∧
    (ClientState.mk false false 1 false none true).outstandingPing = false := by
  decide

/-- C2 (amended): the heartbeat tick only prunes — it keeps exactly the
connected clients and drops the rest — and the probe/force-disconnect
behaviour lives in `checkAlive`, which the tick never invokes: when the
previous probe is still outstanding `checkAlive` disconnects the client
without sending a new probe, otherwise it sets the flag and pings. -/
theorem heartbeat_tick_prunes_checkAlive_probes (s : ClientsControllerState)
    (c : ClientState) :
    (pingIntervalTick s).clients = s.clients.filter (fun cl => cl.connected) ∧
    (c.outstandingPing = true → checkAlive c = (Client.disconnect c, false)) ∧
    (c.outstandingPing = false →
      checkAlive c = ({ c with outstandingPing := true }, true)) := by
  refine ⟨rfl, fun h => ?_, fun h => ?_⟩ <;> simp [checkAlive, h]

/-- Closed instantiation of the amended C2 theorem at concrete states. -/
theorem heartbeat_tick_prunes_checkAlive_probes_witness :
    (pingIntervalTick ⟨[⟨false, true, 1, false, none, true⟩], false, true, none⟩).clients
      = [⟨false, true, 1, false, none, true⟩] ∧
    checkAlive ⟨false, true, 1, false, none, true⟩ =
      (Client.disconnect ⟨false, true, 1, false, none, true⟩, false) ∧
    checkAlive ⟨false, false, 1, false, none, true⟩ =
      ({ (ClientState.mk false false 1 false none true) with outstandingPing := true },
       true) :=
  ⟨by decide,
   (heartbeat_tick_prunes_checkAlive_probes
     ⟨[⟨false, true, 1, false, none, true⟩], false, true, none⟩
     ⟨false, true, 1, false, none, true⟩).2.1 rfl,
   (heartbeat_tick_prunes_checkAlive_probes
     ⟨[⟨false, true, 1, false, none, true⟩], false, true, none⟩
     ⟨false, false, 1, false, none, true⟩).2.2 rfl⟩

/-- C5 counterexample: the running state of the Logging Forwarder is not
equivalent to the registry having a log-subscribed session.  A registered
log-subscribed client whose transport dropped without a close notification
is reclaimed by the heartbeat tick, which does not re-evaluate the
forwarder: afterwards no registered session has `receiveLogs = true` yet
the forwarder is still running. -/
theorem forwarder_running_without_log_subscribers :
    ((pingIntervalTick
        ⟨[⟨false, false, 1, true, none, false⟩], false, true, some ⟨true⟩⟩).clients.filter
      (fun cl => cl.receiveLogs)).length = 0 ∧
    loggingEventForwarderStarted
      (pingIntervalTick
        ⟨[⟨false, false, 1, true, none, false⟩], false, true, some ⟨true⟩⟩) = true := by
  decide

/-- Helper: behaviour of one coalesced cleanup pass — it keeps exactly the
connected clients, resets the in-flight flag, and re-evaluates the
Logging Forwarder stop condition against the filtered registry. -/
theorem cleanupClients_spec (s : ClientsControllerState) :
    (cleanupClients s).clients = s.clients.filter (fun cl => cl.connected) ∧
    (cleanupClients s).cleanupScheduled = false ∧
    loggingEventForwarderStarted (cleanupClients s) =
      (loggingEventForwarderStarted s &&
       !decide (((s.clients.filter (fun cl => cl.connected)).filter
          (fun cl => cl.receiveLogs)).length = 0)) := by
  refine ⟨?_, ?_, ?_⟩
  · unfold cleanupClients cleanupLoggingEventForwarder
    split <;> rfl
  · unfold cleanupClients cleanupLoggingEventForwarder
    split <;> rfl
  · unfold cleanupClients cleanupLoggingEventForwarder
    split
    case isTrue h =>
      have h1 : ((s.clients.filter (fun cl => cl.connected)).filter
          (fun cl => cl.receiveLogs)).length = 0 := h.1
      have h2 : loggingEventForwarderStarted s = true := h.2
      show false = _
      rw [decide_eq_true h1, h2]
      rfl
    case isFalse h =>
      have h' : ¬(((s.clients.filter (fun cl => cl.connected)).filter
          (fun cl => cl.receiveLogs)).length = 0 ∧
          loggingEventForwarderStarted s = true) := h
      show loggingEventForwarderStarted s = _
      by_cases hlen : ((s.clients.filter (fun cl => cl.connected)).filter
          (fun cl => cl.receiveLogs)).length = 0
      · have hst : loggingEventForwarderStarted s = false := by
          cases hb : loggingEventForwarderStarted s
          · rfl
          · exact absurd ⟨hlen, hb⟩ h'
        rw [hst]
        rfl
      · rw [decide_eq_false hlen]
        simp

/-- C5 (amended): the stop condition is evaluated only by
`cleanupLoggingEventForwarder`, which the coalesced cleanup pass and full
teardown invoke: after a cleanup pass the forwarder is running exactly
when it was running before and at least one surviving registered session
has `receiveLogs = true`, and after full teardown it is never running.
The running state is not an invariant of the registry: the heartbeat tick
and the built-in log-config command do not re-evaluate it. -/
theorem cleanup_pass_stops_idle_forwarder (s : ClientsControllerState) :
    loggingEventForwarderStarted (cleanupClients s) =
      (loggingEventForwarderStarted s &&
       !decide (((s.clients.filter (fun cl => cl.connected)).filter
          (fun cl => cl.receiveLogs)).length = 0)) ∧
    loggingEventForwarderStarted (ClientsController.disconnect s) = false := by
  refine ⟨(cleanupClients_spec s).2.2, ?_⟩
  unfold ClientsController.disconnect cleanupLoggingEventForwarder
  split
  case isTrue h => rfl
  case isFalse h =>
    have h' : ¬((List.filter (fun cl => cl.receiveLogs)
        ([] : List ClientState)).length = 0 ∧
        loggingEventForwarderStarted s = true) := h
    show loggingEventForwarderStarted s = false
    cases hb : loggingEventForwarderStarted s
    · rfl
    · exact absurd ⟨rfl, hb⟩ h'

/-- Helper: once the in-flight-cleanup flag is set, further close
notifications schedule nothing. -/
theorem closeNotifications_flag_set (n : Nat) (s : ClientsControllerState)
    (q : Nat) (h : s.cleanupScheduled = true) :
    closeNotifications n (s, q) = (s, q) := by
  induction n with
  | zero => rfl
  | succ n ih =>
    simp only [closeNotifications, scheduleClientCleanup, h, if_true]
    exact ih

/-- C6: starting with the in-flight-cleanup flag clear, a burst of N ≥ 1
transport close notifications queues exactly one cleanup pass (the flag
blocks every rescheduling), and that single pass filters the registry down
to connected sessions, clears the flag again, and re-evaluates the Logging
Forwarder stop condition against the filtered registry. -/
theorem coalesced_cleanup_exactly_one_pass (s : ClientsControllerState)
    (q N : Nat) (hflag : s.cleanupScheduled = false) (hN : 1 ≤ N) :
    (closeNotifications N (s, q)).2 = q + 1 ∧
    (closeNotifications N (s, q)).1 = { s with cleanupScheduled := true } ∧
    (cleanupClients (closeNotifications N (s, q)).1).clients =
      s.clients.filter (fun cl => cl.connected) ∧
    (cleanupClients (closeNotifications N (s, q)).1).cleanupScheduled = false ∧
    loggingEventForwarderStarted (cleanupClients (closeNotifications N (s, q)).1) =
      (loggingEventForwarderStarted s &&
       !decide (((s.clients.filter (fun cl => cl.connected)).filter
          (fun cl => cl.receiveLogs)).length = 0)) := by
  obtain ⟨N, rfl⟩ : ∃ n, N = n + 1 := ⟨N - 1, by omega⟩
  have hstep : closeNotifications (N + 1) (s, q) =
      ({ s with cleanupScheduled := true }, q + 1) := by
    simp only [closeNotifications, scheduleClientCleanup, hflag, if_false,
      Bool.false_eq_true]
    exact closeNotifications_flag_set N _ _ rfl
  rw [hstep]
  obtain ⟨h1, h2, h3⟩ := cleanupClients_spec { s with cleanupScheduled := true }
  exact ⟨rfl, rfl, h1, h2, h3⟩

/-- Closed instantiation of the C6 theorem: three near-simultaneous close
notifications queue exactly one cleanup pass. -/
theorem coalesced_cleanup_exactly_one_pass_witness :
    (closeNotifications 3
        (⟨[⟨false, false, 1, false, none, false⟩], false, true, none⟩, 0)).2 = 1 ∧
    (cleanupClients
        (closeNotifications 3
          (⟨[⟨false, false, 1, false, none, false⟩], false, true, none⟩, 0)).1).clients
      = [] := by
  obtain ⟨h1, -, h3, -, -⟩ :=
    coalesced_cleanup_exactly_one_pass
      ⟨[⟨false, false, 1, false, none, false⟩], false, true, none⟩ 0 3 rfl
      (by decide)
  exact ⟨h1, by rw [h3]; decide⟩

/-- C1 (amended): a negotiation command (`initialize` or `setApiSchema`)
with an out-of-range schemaVersion is answered with the
schema-incompatibility error, but the stored schemaVersion has already
been assigned the rejected value; an accepted negotiation is answered with
the success reply and leaves the stored schemaVersion inside
[min, max]. -/
theorem negotiation_schema_bounds (minSV maxSV : Int) (ho : HandlerOutcome)
    (c : ClientState) (d : Driver) (msg : IncomingMessage)
    (h : msg.command = ServerCommand.initCmd ∨
      msg.command = ServerCommand.setApiSchema) :
    ((msg.schemaVersion < minSV ∨ msg.schemaVersion > maxSV) →
      (receiveMessage minSV maxSV ho c d (.wellFormed msg)).sent =
        [.resultError msg.messageId .schemaIncompatible
          (.schemaVersion msg.schemaVersion)] ∧
      (receiveMessage minSV maxSV ho c d (.wellFormed msg)).client.schemaVersion =
        msg.schemaVersion) ∧
    (minSV ≤ msg.schemaVersion → msg.schemaVersion ≤ maxSV →
      (receiveMessage minSV maxSV ho c d (.wellFormed msg)).sent =
        [.resultSuccess msg.messageId .empty false] ∧
      minSV ≤ (receiveMessage minSV maxSV ho c d (.wellFormed msg)).client.schemaVersion ∧
      (receiveMessage minSV maxSV ho c d (.wellFormed msg)).client.schemaVersion ≤ maxSV) := by
  obtain ⟨mid, cmd, sv, auac, cfg⟩ := msg
  dsimp only at h ⊢
  constructor
  · intro hout
    have hcond : sv < minSV ∨ sv > maxSV := hout
    rcases h with h | h <;> subst h <;>
      simp [receiveMessage, handleParsed, setSchemaVersion, hcond, catchReply,
        BaseError.errorCode, BaseError.args, ServerCommand.initCmd,
        ServerCommand.setApiSchema]
  · intro hlo hhi
    have hcond : ¬(sv < minSV ∨ sv > maxSV) := by omega
    rcases h with h | h <;> subst h <;>
      simp [receiveMessage, handleParsed, setSchemaVersion, hcond,
        ServerCommand.initCmd, ServerCommand.setApiSchema] <;>
      omega

/-- Closed instantiation of the amended C1 theorem: with bounds [1, 10],
negotiating 999 is rejected with the incompatibility error (but stored),
and negotiating 5 is accepted and stored in range. -/
theorem negotiation_schema_bounds_witness :
    ((receiveMessage 1 10 (.success 0) ⟨false, false, 1, false, none, true⟩
        ⟨0, 0⟩ (.wellFormed ⟨"2", "setApiSchema", 999, none, 0⟩)).sent =
      [.resultError "2" .schemaIncompatible (.schemaVersion 999)] ∧
     (receiveMessage 1 10 (.success 0) ⟨false, false, 1, false, none, true⟩
        ⟨0, 0⟩ (.wellFormed ⟨"2", "setApiSchema", 999, none, 0⟩)).client.schemaVersion
       = 999) ∧
    ((receiveMessage 1 10 (.success 0) ⟨false, false, 1, false, none, true⟩
        ⟨0, 0⟩ (.wellFormed ⟨"1", "initialize", 5, none, 0⟩)).sent =
      [.resultSuccess "1" .empty false] ∧
     1 ≤ (receiveMessage 1 10 (.success 0) ⟨false, false, 1, false, none, true⟩
        ⟨0, 0⟩ (.wellFormed ⟨"1", "initialize", 5, none, 0⟩)).client.schemaVersion ∧
     (receiveMessage 1 10 (.success 0) ⟨false, false, 1, false, none, true⟩
        ⟨0, 0⟩ (.wellFormed ⟨"1", "initialize", 5, none, 0⟩)).client.schemaVersion
       ≤ 10) :=
  ⟨(negotiation_schema_bounds 1 10 (.success 0)
      ⟨false, false, 1, false, none, true⟩ ⟨0, 0⟩ ⟨"2", "setApiSchema", 999, none, 0⟩
      (Or.inr rfl)).1 (by decide),
   (negotiation_schema_bounds 1 10 (.success 0)
      ⟨false, false, 1, false, none, true⟩ ⟨0, 0⟩ ⟨"1", "initialize", 5, none, 0⟩
      (Or.inl rfl)).2 (by decide) (by decide)⟩

/-- Helper: every run of the try block on a parsed message either returns
normally having sent exactly one success reply addressed to the message's
id, or throws having sent nothing. -/
theorem handleParsed_reply_shape (minSV maxSV : Int) (ho : HandlerOutcome)
    (c : ClientState) (d : Driver) (msg : IncomingMessage) :
    (∃ cd : ClientState × Driver, ∃ payload : ResultPayload, ∃ compress : Bool,
      handleParsed minSV maxSV ho c d msg =
        (cd.1, cd.2, [.resultSuccess msg.messageId payload compress], none)) ∨
    (∃ cd : ClientState × Driver, ∃ e : ThrownError,
      handleParsed minSV maxSV ho c d msg = (cd.1, cd.2, [], some e)) := by
  unfold handleParsed setSchemaVersion
  repeat' split
  all_goals
    first
      | exact Or.inl ⟨(_, _), _, _, rfl⟩
      | exact Or.inr ⟨(_, _), _, rfl⟩

/-- C3: handling any successfully parsed message produces exactly one
result reply, carrying the original messageId, and never closes the
session: the success reply when the try block returns normally, and the
error reply built by the catch block when it throws. -/
theorem parsed_message_exactly_one_reply (minSV maxSV : Int) (ho : HandlerOutcome)
    (c : ClientState) (d : Driver) (msg : IncomingMessage) :
    (receiveMessage minSV maxSV ho c d (.wellFormed msg)).closed = false ∧
    ∃ m : OutgoingMessage,
      (receiveMessage minSV maxSV ho c d (.wellFormed msg)).sent = [m] ∧
      m.isResult = true ∧
      m.messageIdOf = some msg.messageId ∧
      ((handleParsed minSV maxSV ho c d msg).2.2.2 = none →
        m.isSuccess = true) ∧
      (∀ e, (handleParsed minSV maxSV ho c d msg).2.2.2 = some e →
        m = catchReply msg.messageId e) := by
  rcases handleParsed_reply_shape minSV maxSV ho c d msg with
    ⟨cd, payload, compress, heq⟩ | ⟨cd, e, heq⟩
  · refine ⟨?_, .resultSuccess msg.messageId payload compress, ?_, rfl, rfl, ?_, ?_⟩
    · simp [receiveMessage, heq]
    · simp [receiveMessage, heq]
    · intro _
      rfl
    · intro e he
      rw [heq] at he
      simp at he
  · refine ⟨?_, catchReply msg.messageId e, ?_, ?_, ?_, ?_, ?_⟩
    · simp [receiveMessage, heq]
    · simp [receiveMessage, heq]
    · cases e with
      | base e0 => rfl
      | zwave code message => rfl
      | other => rfl
    · cases e with
      | base e0 => rfl
      | zwave code message => rfl
      | other => rfl
    · intro hnone
      rw [heq] at hnone
      simp at hnone
    · intro e2 he2
      rw [heq] at he2
      simp at he2
      rw [he2]

/-- Closed instantiation of the C3 theorem at a concrete message whose
namespaced handler throws. -/
theorem parsed_message_exactly_one_reply_witness :
    (receiveMessage 1 10 (.thrown .other) ⟨false, false, 1, false, none, true⟩
        ⟨0, 0⟩ (.wellFormed ⟨"7", "node.ping", 1, none, 0⟩)).closed = false ∧
    ∃ m : OutgoingMessage,
      (receiveMessage 1 10 (.thrown .other) ⟨false, false, 1, false, none, true⟩
          ⟨0, 0⟩ (.wellFormed ⟨"7", "node.ping", 1, none, 0⟩)).sent = [m] ∧
      m.isResult = true ∧
      m.messageIdOf = some "7" ∧
      ((handleParsed 1 10 (.thrown .other) ⟨false, false, 1, false, none, true⟩
          ⟨0, 0⟩ ⟨"7", "node.ping", 1, none, 0⟩).2.2.2 = none →
        m.isSuccess = true) ∧
      (∀ e, (handleParsed 1 10 (.thrown .other) ⟨false, false, 1, false, none, true⟩
          ⟨0, 0⟩ ⟨"7", "node.ping", 1, none, 0⟩).2.2.2 = some e →
        m = catchReply "7" e) :=
  parsed_message_exactly_one_reply 1 10 (.thrown .other)
    ⟨false, false, 1, false, none, true⟩ ⟨0, 0⟩ ⟨"7", "node.ping", 1, none, 0⟩

/-- C4: handling `startListening` queues exactly one reply — the success
result carrying the full state snapshot, sent with compressed framing —
computed from the pre-flip session state, and the same atomic handling
step then sets `receiveEvents` to true; nothing else is sent and the
session stays open. -/
theorem startListening_snapshot_before_flag (minSV maxSV : Int)
    (ho : HandlerOutcome) (c : ClientState) (d : Driver) (msg : IncomingMessage)
    (h : msg.command = ServerCommand.startListening) :
    receiveMessage minSV maxSV ho c d (.wellFormed msg) =
      ⟨{ c with receiveEvents := true }, d,
       [.resultSuccess msg.messageId (.state (dumpState d c.schemaVersion)) true],
       false⟩ := by
  obtain ⟨mid, cmd, sv, auac, cfg⟩ := msg
  dsimp only at h
  subst h
  rfl

/-- Closed instantiation of the C4 theorem. -/
theorem startListening_snapshot_before_flag_witness :
    receiveMessage 1 10 (.success 0) ⟨false, false, 3, false, none, true⟩
        ⟨42, 0⟩ (.wellFormed ⟨"2", "startListening", 0, none, 0⟩) =
      ⟨{ (ClientState.mk false false 3 false none true) with receiveEvents := true },
       ⟨42, 0⟩,
       [.resultSuccess "2" (.state (dumpState ⟨42, 0⟩ 3)) true], false⟩ :=
  startListening_snapshot_before_flag 1 10 (.success 0)
    ⟨false, false, 3, false, none, true⟩ ⟨42, 0⟩ ⟨"2", "startListening", 0, none, 0⟩
    rfl

/-- C8 counterexample: at command "toString.doThing" the namespace prefix
"toString" matches none of the seven recognized handler families, yet the
session does not send the unknown-command error: the property lookup
`this.instanceHandlers["toString"]` resolves the truthy inherited
`Object.prototype.toString`, the dispatch takes the handler branch, the
call returns normally (the string "[object Object]", instantiated here as
the success outcome `.success 0`) and the session sends a success reply. -/
theorem prototype_key_namespace_success_reply :
    (receiveMessage 1 10 (.success 0) ⟨false, false, 1, false, none, true⟩
        ⟨0, 0⟩ (.wellFormed ⟨"8", "toString.doThing", 1, none, 0⟩)).sent =
      [.resultSuccess "8" (.handlerResult 0) false] ∧
    namespaceOf "toString.doThing" ∉ instanceNames := by
  decide

/-- C8 (amended): a parsed message whose command is none of the built-ins
and whose namespace prefix neither matches a recognized handler family nor
is an `Object.prototype`-inherited property name is answered with exactly
the unknown-command error reply carrying its messageId; the thrown
`UnknownCommandError` is caught at the session boundary, the session stays
open and its state is untouched. -/
theorem unknown_namespace_yields_error_reply (minSV maxSV : Int)
    (ho : HandlerOutcome) (c : ClientState) (d : Driver) (msg : IncomingMessage)
    (h1 : msg.command ≠ ServerCommand.initCmd)
    (h2 : msg.command ≠ ServerCommand.setApiSchema)
    (h3 : msg.command ≠ ServerCommand.startListening)
    (h4 : msg.command ≠ ServerCommand.updateLogConfig)
    (h5 : msg.command ≠ ServerCommand.getLogConfig)
    (h6 : namespaceOf msg.command ∉ instanceNames)
    (h7 : namespaceOf msg.command ∉ objectPrototypeKeys) :
    receiveMessage minSV maxSV ho c d (.wellFormed msg) =
      ⟨c, d, [.resultError msg.messageId .unknownCommand (.command msg.command)],
       false⟩ := by
  simp [receiveMessage, handleParsed, h1, h2, h3, h4, h5, h6, h7, catchReply,
    BaseError.errorCode, BaseError.args]

/-- Closed instantiation of the amended C8 theorem at the spec's example
command "bogus.doThing". -/
theorem unknown_namespace_yields_error_reply_witness :
    receiveMessage 1 10 (.success 0) ⟨false, false, 1, false, none, true⟩
        ⟨0, 0⟩ (.wellFormed ⟨"9", "bogus.doThing", 1, none, 0⟩) =
      ⟨⟨false, false, 1, false, none, true⟩, ⟨0, 0⟩,
       [.resultError "9" .unknownCommand (.command "bogus.doThing")], false⟩ :=
  unknown_namespace_yields_error_reply 1 10 (.success 0)
    ⟨false, false, 1, false, none, true⟩ ⟨0, 0⟩ ⟨"9", "bogus.doThing", 1, none, 0⟩
    (by decide) (by decide) (by decide) (by decide) (by decide) (by decide)
    (by decide)

/-- C10: handling `setApiSchema` mutates only the stored schemaVersion —
`receiveEvents`, `receiveLogs`, `additionalUserAgentComponents` and the
connection state are untouched, whether the version is accepted or
rejected — while `initialize` additionally stores the supplied client
metadata, and only when the version is accepted. -/
theorem setApiSchema_mutates_only_schemaVersion (minSV maxSV : Int)
    (ho : HandlerOutcome) (c : ClientState) (d : Driver) (msg : IncomingMessage) :
    (msg.command = ServerCommand.setApiSchema →
      (receiveMessage minSV maxSV ho c d (.wellFormed msg)).client =
        { c with schemaVersion := msg.schemaVersion }) ∧
    (msg.command = ServerCommand.initCmd →
      (receiveMessage minSV maxSV ho c d (.wellFormed msg)).client =
        if msg.schemaVersion < minSV ∨ msg.schemaVersion > maxSV then
          { c with schemaVersion := msg.schemaVersion }
        else
          { c with schemaVersion := msg.schemaVersion,
                   additionalUserAgentComponents :=
                     msg.additionalUserAgentComponents }) := by
  obtain ⟨mid, cmd, sv, auac, cfg⟩ := msg
  dsimp only
  constructor
  · intro h
    subst h
    by_cases hr : sv < minSV ∨ sv > maxSV <;>
      simp [receiveMessage, handleParsed, setSchemaVersion, hr,
        ServerCommand.initCmd, ServerCommand.setApiSchema]
  · intro h
    subst h
    by_cases hr : sv < minSV ∨ sv > maxSV <;>
      simp [receiveMessage, handleParsed, setSchemaVersion, hr,
        ServerCommand.initCmd, ServerCommand.setApiSchema]

/-- Closed instantiation of the C10 theorem: `setApiSchema` leaves all
fields but schemaVersion unchanged; an accepted `initialize` also stores
the metadata. -/
theorem setApiSchema_mutates_only_schemaVersion_witness :
    (receiveMessage 1 10 (.success 0) ⟨true, false, 1, true, none, true⟩
        ⟨0, 0⟩ (.wellFormed ⟨"5", "setApiSchema", 7, some [("a", "b")], 0⟩)).client =
      { (ClientState.mk true false 1 true none true) with schemaVersion := 7 } ∧
    (receiveMessage 1 10 (.success 0) ⟨true, false, 1, true, none, true⟩
        ⟨0, 0⟩ (.wellFormed ⟨"6", "initialize", 7, some [("a", "b")], 0⟩)).client =
      { (ClientState.mk true false 1 true none true) with
          schemaVersion := 7,
          additionalUserAgentComponents := some [("a", "b")] } :=
  ⟨(setApiSchema_mutates_only_schemaVersion 1 10 (.success 0)
      ⟨true, false, 1, true, none, true⟩ ⟨0, 0⟩
      ⟨"5", "setApiSchema", 7, some [("a", "b")], 0⟩).1 rfl,
   by
    have h := (setApiSchema_mutates_only_schemaVersion 1 10 (.success 0)
      ⟨true, false, 1, true, none, true⟩ ⟨0, 0⟩
      ⟨"6", "initialize", 7, some [("a", "b")], 0⟩).2 rfl
    rw [h]
    decide⟩

end ZwaveJsServer
